import Mathlib

/-!
Shallow embedding of the `http-error` crate (src/src/lib.rs): the
`HttpError` value, the `ResultExt` conversion extension, and the
`recover` boundary function, together with the fragments of the external
`http` crate the code depends on (`StatusCode::canonical_reason` and the
`Display` instance of `StatusCode`).

Modelling conventions:
* an HTTP status code is a `Nat`;
* a boxed dynamic error (`Box<dyn Error + Send + Sync>`) is the
  inductive `ErrSource`: a displayable description plus an optional
  further cause, which makes every cause chain finite;
* `warp::Rejection` is a sum: either a rejection carrying an
  `HttpError` (built by `warp::reject::custom`) or a foreign token;
  `Rejection.find` models `err.find::<HttpError>()`;
* `recover` returns the list of error-level log lines it emits together
  with its `Result<impl Reply, Rejection>` value;
* a Rust `Result<T, E>` is `Except E T`; the `E: Into<BoxedError>`
  bound becomes an explicit conversion function `into : E → ErrSource`;
* the `FnOnce() -> String` message producer is a thunk `Unit → String`.
-/

/-- Fragment of the external `http` crate: `StatusCode::canonical_reason`,
the standard reason phrase table (the entries of the crate's match). -/
def canonical_reason (s : Nat) : Option String :=
  match s with
  | 100 => some "Continue"
  | 101 => some "Switching Protocols"
  | 102 => some "Processing"
  | 200 => some "OK"
  | 201 => some "Created"
  | 202 => some "Accepted"
  | 203 => some "Non-Authoritative Information"
  | 204 => some "No Content"
  | 205 => some "Reset Content"
  | 206 => some "Partial Content"
  | 207 => some "Multi-Status"
  | 208 => some "Already Reported"
  | 226 => some "IM Used"
  | 300 => some "Multiple Choices"
  | 301 => some "Moved Permanently"
  | 302 => some "Found"
  | 303 => some "See Other"
  | 304 => some "Not Modified"
  | 305 => some "Use Proxy"
  | 307 => some "Temporary Redirect"
  | 308 => some "Permanent Redirect"
  | 400 => some "Bad Request"
  | 401 => some "Unauthorized"
  | 402 => some "Payment Required"
  | 403 => some "Forbidden"
  | 404 => some "Not Found"
  | 405 => some "Method Not Allowed"
  | 406 => some "Not Acceptable"
  | 407 => some "Proxy Authentication Required"
  | 408 => some "Request Timeout"
  | 409 => some "Conflict"
  | 410 => some "Gone"
  | 411 => some "Length Required"
  | 412 => some "Precondition Failed"
  | 413 => some "Payload Too Large"
  | 414 => some "URI Too Long"
  | 415 => some "Unsupported Media Type"
  | 416 => some "Range Not Satisfiable"
  | 417 => some "Expectation Failed"
  | 418 => some "I\x27m a teapot"
  | 421 => some "Misdirected Request"
  | 422 => some "Unprocessable Entity"
  | 423 => some "Locked"
  | 424 => some "Failed Dependency"
  | 426 => some "Upgrade Required"
  | 428 => some "Precondition Required"
  | 429 => some "Too Many Requests"
  | 431 => some "Request Header Fields Too Large"
  | 451 => some "Unavailable For Legal Reasons"
  | 500 => some "Internal Server Error"
  | 501 => some "Not Implemented"
  | 502 => some "Bad Gateway"
  | 503 => some "Service Unavailable"
  | 504 => some "Gateway Timeout"
  | 505 => some "HTTP Version Not Supported"
  | 506 => some "Variant Also Negotiates"
  | 507 => some "Insufficient Storage"
  | 508 => some "Loop Detected"
  | 510 => some "Not Extended"
  | 511 => some "Network Authentication Required"
  | _ => none

/-- Fragment of the external `http` crate: `Display for StatusCode`
writes the numeric code and the canonical reason. -/
def statusCodeDisplay (s : Nat) : String :=
  toString s ++ " " ++ ((canonical_reason s).getD "<unknown status code>")

/-- `BoxedError = Box<dyn Error + Send + Sync>`: a displayable
description plus, via `Error::source`, an optional further cause. -/
inductive ErrSource where
  | leaf (description : String)
  | node (description : String) (cause : ErrSource)
deriving DecidableEq, Repr

/-- `Display` of a boxed dynamic error: its description. -/
def ErrSource.description : ErrSource → String
  | .leaf d => d
  | .node d _ => d

/-- `Error::source` of a boxed dynamic error: the next chain link. -/
def ErrSource.src : ErrSource → Option ErrSource
  | .leaf _ => none
  | .node _ s => some s

/-- Number of links of a cause chain. -/
def ErrSource.depth : ErrSource → Nat
  | .leaf _ => 1
  | .node _ s => 1 + s.depth

/-- Descriptions of the chain links, outermost first. -/
def ErrSource.descriptions : ErrSource → List String
  | .leaf d => [d]
  | .node d s => d :: s.descriptions

/-- The `HttpError` struct: status, optional message, optional cause. -/
structure HttpError where
  status : Nat
  message : Option String
  source : Option ErrSource
deriving DecidableEq, Repr

/-- `HttpError::new(status)`: no message, no cause. -/
def HttpError.new (status : Nat) : HttpError :=
  { status := status, message := none, source := none }

/-- `HttpError::with_message`: builder step setting `message`. -/
def HttpError.with_message (e : HttpError) (message : String) : HttpError :=
  { e with message := some message }

/-- `HttpError::with_source`: builder step setting `source`. -/
def HttpError.with_source (e : HttpError) (s : ErrSource) : HttpError :=
  { e with source := some s }

/-- `Display for HttpError`: `write!(f, "fail with status {}", self.status)`. -/
def HttpError.display (e : HttpError) : String :=
  "fail with status " ++ statusCodeDisplay e.status

/-- `warp::Rejection`: either a custom rejection carrying an `HttpError`
(`warp::reject::custom`) or a foreign token of some other failure class. -/
inductive Rejection where
  | custom (e : HttpError)
  | foreign (tag : Nat)
deriving DecidableEq, Repr

/-- `err.find::<HttpError>()`: extract the embedded `HttpError`, if any. -/
def Rejection.find : Rejection → Option HttpError
  | .custom e => some e
  | .foreign _ => none

/-- A `warp` reply built by `warp::reply::with_status(body, status)`. -/
structure Reply where
  body : String
  status : Nat
deriving DecidableEq, Repr

/-- The log lines the `while let Some(err) = source` loop of `recover`
emits for a chain starting at a present link: one line
`error!("  -> {}", err)` per link, then the loop continues with
`err.source()`. -/
def ErrSource.logs : ErrSource → List String
  | .leaf d => ["  -> " ++ d]
  | .node d s => ("  -> " ++ d) :: s.logs

/-- The cause-chain log lines of `recover`, starting from the value of
`err.source()` on the `HttpError`. -/
def sourceLogs : Option ErrSource → List String
  | none => []
  | some e => e.logs

/-- `recover(err)`: if the rejection carries an `HttpError`, log its
display line and then the cause chain, and reply with status `status()`
and body `message().unwrap_or_else(canonical_reason.unwrap_or(""))`;
otherwise return the rejection unchanged. The first component is the
list of error-level log lines emitted. -/
def recover (err : Rejection) : List String × Except Rejection Reply :=
  match err.find with
  | some e =>
      (e.display :: sourceLogs e.source,
       .ok { body := e.message.getD ((canonical_reason e.status).getD ""),
             status := e.status })
  | none => ([], .error err)

/-- `StatusCode::BAD_REQUEST`. -/
def BAD_REQUEST : Nat := 400

/-- `StatusCode::INTERNAL_SERVER_ERROR`. -/
def INTERNAL_SERVER_ERROR : Nat := 500

/-- `ResultExt::with_err_status`: on failure, wrap into an `HttpError`
with the given status, no message, and `source = Some(err.into())`. -/
def with_err_status (into : E → ErrSource) (r : Except E T) (status : Nat) :
    Except Rejection T :=
  r.mapError fun err =>
    Rejection.custom
      { status := status, message := none, source := some (into err) }

/-- `ResultExt::with_err_msg`: like `with_err_status`, additionally
setting `message = Some(message())` from the thunk. -/
def with_err_msg (into : E → ErrSource) (r : Except E T) (status : Nat)
    (message : Unit → String) : Except Rejection T :=
  r.mapError fun err =>
    Rejection.custom
      { status := status, message := some (message ()),
        source := some (into err) }

/-- `ResultExt::client_err`: `with_err_status(StatusCode::BAD_REQUEST)`. -/
def client_err (into : E → ErrSource) (r : Except E T) : Except Rejection T :=
  with_err_status into r BAD_REQUEST

/-- `ResultExt::server_err`:
`with_err_status(StatusCode::INTERNAL_SERVER_ERROR)`. -/
def server_err (into : E → ErrSource) (r : Except E T) : Except Rejection T :=
  with_err_status into r INTERNAL_SERVER_ERROR

/-- Running a `FnOnce() -> String` thunk under an invocation counter:
evaluates the thunk and increments the counter. -/
def counted (f : Unit → String) : StateM Nat String :=
  fun n => (f (), n + 1)

/-- Instrumented `with_err_msg`, threading an invocation counter for the
message thunk. It mirrors the source exactly: `map_err` runs its closure
only on the failure branch, and the closure body evaluates `message()`
exactly once. -/
def with_err_msgM (into : E → ErrSource) (r : Except E T) (status : Nat)
    (f : Unit → String) : StateM Nat (Except Rejection T) :=
  match r with
  | .ok v => pure (.ok v)
  | .error e => do
      let m ← counted f
      pure (.error (Rejection.custom
        { status := status, message := some m, source := some (into e) }))

/-- The `source` of the `HttpError` inside a failed conversion result,
if the result is a custom rejection. -/
def errSourceOf : Except Rejection T → Option ErrSource
  | .error (.custom h) => h.source
  | _ => none

/-- `status(status)` convenience constructor. -/
def statusErr (s : Nat) : HttpError := HttpError.new s

/-- `no_content()` convenience constructor. -/
def no_content : HttpError := HttpError.new 204

/-- `internal_server_error(err)` convenience constructor. -/
def internal_server_error (err : ErrSource) : HttpError :=
  (HttpError.new 500).with_source err

/-- Count of leading space characters of a log line, used to talk about
indentation of the cause-chain log lines. -/
def leadingSpaces (s : String) : Nat :=
  (s.data.takeWhile (fun c => c = ' ')).length

/-- Descriptions of a possibly-absent chain, outermost first. -/
def sourceDescriptions : Option ErrSource → List String
  | none => []
  | some c => c.descriptions

/-- Depth of a possibly-absent chain. -/
def sourceDepth : Option ErrSource → Nat
  | none => 0
  | some c => c.depth

theorem ErrSource.logs_eq_map (c : ErrSource) :
    c.logs = c.descriptions.map (fun d => "  -> " ++ d) := by
  induction c with
  | leaf d => rfl
  | node d s ih => simp [ErrSource.logs, ErrSource.descriptions, ih]

theorem sourceLogs_eq_map (o : Option ErrSource) :
    sourceLogs o = (sourceDescriptions o).map (fun d => "  -> " ++ d) := by
  cases o with
  | none => rfl
  | some c => simpa [sourceLogs, sourceDescriptions] using c.logs_eq_map

theorem sourceDescriptions_length (o : Option ErrSource) :
    (sourceDescriptions o).length = sourceDepth o := by
  cases o with
  | none => rfl
  | some c =>
    simp only [sourceDescriptions, sourceDepth]
    induction c with
    | leaf d => rfl
    | node d s ih =>
      simp [ErrSource.descriptions, ErrSource.depth, ih, Nat.add_comm]

/-- C1: `recover` on a recognized `HttpError` replies with the stored
status and body `message()` if set, else the canonical reason phrase of
the status, else the empty string; in particular `HttpError::new(S)`
yields the reason phrase of `S` when `S` has one, and
`HttpError::new(S).with_message(M)` yields `M`. -/
theorem recover_renders_message_or_reason (e : HttpError) (s : Nat)
    (r m : String) (h : canonical_reason s = some r) :
    (recover (.custom e)).2 =
      .ok { body := e.message.getD ((canonical_reason e.status).getD ""),
            status := e.status } ∧
    (recover (.custom (HttpError.new s))).2 = .ok { body := r, status := s } ∧
    (recover (.custom ((HttpError.new s).with_message m))).2 =
      .ok { body := m, status := s } := by
  refine ⟨rfl, ?_, rfl⟩
  simp [recover, Rejection.find, HttpError.new, h]

/-- Witness for C1 at status 404 and message "hello". -/
theorem recover_renders_message_or_reason_witness :
    canonical_reason 404 = some "Not Found" ∧
    ((recover (.custom (HttpError.new 500))).2 =
       .ok { body := ((HttpError.new 500).message).getD
               ((canonical_reason (HttpError.new 500).status).getD ""),
             status := (HttpError.new 500).status } ∧
     (recover (.custom (HttpError.new 404))).2 =
       .ok { body := "Not Found", status := 404 } ∧
     (recover (.custom ((HttpError.new 404).with_message "hello"))).2 =
       .ok { body := "hello", status := 404 }) :=
  ⟨rfl,
   recover_renders_message_or_reason (HttpError.new 500) 404 "Not Found"
     "hello" rfl⟩

/-- C2: `recover` on a rejection from which no `HttpError` can be
extracted returns that rejection unchanged, emitting no log lines and
producing no response. -/
theorem recover_foreign_passthrough (r : Rejection) (h : r.find = none) :
    recover r = ([], .error r) := by
  simp [recover, h]

/-- Witness for C2 at a concrete foreign token. -/
theorem recover_foreign_passthrough_witness :
    (Rejection.foreign 7).find = none ∧
    recover (.foreign 7) = ([], .error (.foreign 7)) :=
  ⟨rfl, recover_foreign_passthrough (.foreign 7) rfl⟩

/-- C3: each conversion operation applied to `Err(e)` produces a custom
rejection whose `HttpError.source` — the first link of the cause
chain — is exactly the boxed original failure `into e`; it is retained
even when `with_err_msg` also sets a client-visible message. -/
theorem conversion_retains_cause (into : E → ErrSource) (e : E) (s : Nat)
    (f : Unit → String) :
    errSourceOf (client_err into (Except.error e : Except E T)) =
      some (into e) ∧
    errSourceOf (server_err into (Except.error e : Except E T)) =
      some (into e) ∧
    errSourceOf (with_err_status into (Except.error e : Except E T) s) =
      some (into e) ∧
    errSourceOf (with_err_msg into (Except.error e : Except E T) s f) =
      some (into e) :=
  ⟨rfl, rfl, rfl, rfl⟩

/-- C4: each conversion operation passes an `Ok` value through
unchanged. -/
theorem conversion_preserves_ok (into : E → ErrSource) (v : T) (s : Nat)
    (f : Unit → String) :
    client_err into (Except.ok v) = Except.ok v ∧
    server_err into (Except.ok v) = Except.ok v ∧
    with_err_status into (Except.ok v) s = Except.ok v ∧
    with_err_msg into (Except.ok v) s f = Except.ok v :=
  ⟨rfl, rfl, rfl, rfl⟩

/-- C5: the message thunk of `with_err_msg` is never invoked on `Ok`
and is invoked exactly once on `Err`, and the instrumented run agrees
with `with_err_msg`. -/
theorem with_err_msg_lazy (into : E → ErrSource) (r : Except E T) (s : Nat)
    (f : Unit → String) (n : Nat) :
    ((with_err_msgM into r s f).run n).2 =
      n + (match r with | .ok _ => 0 | .error _ => 1) ∧
    ((with_err_msgM into r s f).run n).1 = with_err_msg into r s f := by
  cases r <;> exact ⟨rfl, rfl⟩

/-- C6: `client_err` wraps a failure with status 400, no message, cause
the original failure; `server_err` likewise with status 500; recovering
the rejection built by `client_err` from `Err("not-a-number")` yields
status 400 and body "Bad Request". -/
theorem client_server_defaults (into : E → ErrSource) (e : E) :
    client_err into (Except.error e : Except E T) =
      Except.error (.custom
        { status := 400, message := none, source := some (into e) }) ∧
    server_err into (Except.error e : Except E T) =
      Except.error (.custom
        { status := 500, message := none, source := some (into e) }) ∧
    client_err (fun d => ErrSource.leaf d)
        (Except.error "not-a-number" : Except String Unit) =
      Except.error (.custom
        ⟨400, none, some (.leaf "not-a-number")⟩) ∧
    (recover (.custom ⟨400, none, some (.leaf "not-a-number")⟩)).2 =
      .ok { body := "Bad Request", status := 400 } :=
  ⟨rfl, rfl, rfl, rfl⟩

/-- C7 counterexample: the cause-chain log lines all carry the same
fixed marker "  -> "; the indentation does not increase with chain
depth. At a chain of depth 2 the two cause lines have equal leading
space counts. -/
theorem recover_chain_flat_indent :
    (recover (.custom ⟨500, none, some (.node "a" (.leaf "b"))⟩)).1 =
      ["fail with status 500 Internal Server Error", "  -> a", "  -> b"] ∧
    ¬ leadingSpaces "  -> a" < leadingSpaces "  -> b" :=
  ⟨rfl, by decide⟩

/-- C7 amended: for a recognized `HttpError` with a cause chain of
depth N, `recover` logs the display line first and then exactly N
further lines, one per link in outermost-to-innermost order, each being
the fixed marker "  -> " followed by that link's description (the marker
is the same at every depth), and the walk terminates. -/
theorem recover_chain_logs (e : HttpError) :
    (recover (.custom e)).1 =
      e.display :: (sourceDescriptions e.source).map (fun d => "  -> " ++ d) ∧
    (recover (.custom e)).1.length = sourceDepth e.source + 1 := by
  constructor
  · simp [recover, Rejection.find, sourceLogs_eq_map]
  · simp [recover, Rejection.find, sourceLogs_eq_map,
      sourceDescriptions_length]

/-- C8 counterexample: a second `with_message` builder step replaces an
already-set message, so a subsequent builder step can change it. -/
theorem with_message_overwrites :
    (((HttpError.new 404).with_message "a").with_message "b").message ≠
      some "a" ∧
    (((HttpError.new 404).with_message "a").with_message "b").message =
      some "b" :=
  ⟨by decide, rfl⟩

/-- C8 amended: once set, the message is never altered by any builder
step other than `with_message` itself: `with_source` leaves the message
unchanged, and `with_message` replaces it with exactly its argument. -/
theorem message_stable_under_with_source (e : HttpError) (s : ErrSource)
    (m : String) :
    (e.with_source s).message = e.message ∧
    (e.with_message m).message = some m :=
  ⟨rfl, rfl⟩

/-- C9: `with_message` changes only the message field and `with_source`
changes only the cause field; neither changes the status. -/
theorem builder_frame (e : HttpError) (m : String) (s : ErrSource) :
    (e.with_message m).status = e.status ∧
    (e.with_message m).source = e.source ∧
    (e.with_message m).message = some m ∧
    (e.with_source s).status = e.status ∧
    (e.with_source s).message = e.message ∧
    (e.with_source s).source = some s :=
  ⟨rfl, rfl, rfl, rfl, rfl, rfl⟩

/-- C10: the `Display` output of an `HttpError` depends only on its
status: two values with equal status display identically, whatever
their message and cause fields hold. -/
theorem display_depends_only_on_status (a b : HttpError)
    (h : a.status = b.status) :
    a.display = b.display := by
  simp [HttpError.display, h]

/-- Witness for C10: a value with a secret message and an internal
cause displays exactly like the bare error with the same status. -/
theorem display_depends_only_on_status_witness :
    ({ status := 404, message := some "secret",
       source := some (.leaf "sql detail") } : HttpError).status =
      (HttpError.new 404).status ∧
    ({ status := 404, message := some "secret",
       source := some (.leaf "sql detail") } : HttpError).display =
      (HttpError.new 404).display :=
  ⟨rfl, display_depends_only_on_status _ _ rfl⟩
